import Mathlib

/-!
# Moku platform models: a shallow embedding

The repository `moku-models` exports the data-model surface
(`MokuConfig`, `SlotConfig`, `MokuConnection`, `MokuConnectionList`,
`MokuDeviceInfo`, `MokuDeviceCache`, `MokuGoPlatform`, `MOKU_GO_PLATFORM`,
`get_platform`) from its package initialisers.  The implementation modules
(`moku_models.platform_config`, `moku_models.routing`,
`moku_models.discovery`, `moku_models.platforms.moku_go`) are not part of
the available source tree, so every operation below is modelled from the
specification text and then the specification's claims are settled against
those models.
-/

set_option autoImplicit false

namespace MokuModels

/-- Modelled from the spec: `moku_models.platforms` module is missing from the
source tree.  Spec 3: a `PlatformSpec` is `{ name, slot_count ≥ 1,
allowed_instruments: set of string per slot }`, immutable. -/
structure PlatformSpec where
  name : String
  slot_count : Nat
  allowed_instruments : List (List String)
deriving Repr, DecidableEq

/-- The allowed instrument set of platform `p` for slot `i` (spec 3:
"set of string per slot"). -/
def PlatformSpec.allowedFor (p : PlatformSpec) (i : Nat) : List String :=
  p.allowed_instruments.getD i []

/-- Modelled from the spec: `moku_models.platform_config` is missing from the
source tree.  Spec 3: a `SlotConfig` is `{ slot_index, instrument,
instrument_parameters }`, platform-agnostic until validated. -/
structure SlotConfig where
  slot_index : Nat
  instrument : String
  instrument_parameters : List (String × String)
deriving Repr, DecidableEq

/-- Modelled from the spec: the error taxonomy of spec 7:
`UnknownPlatformError`, `DuplicateSlotError`, `InvalidSlotError(reason)`,
`InvalidEndpointError`, `SealedConfigError`, `NotFoundError`. -/
inductive MokuError where
  | unknownPlatform (name : String)
  | duplicateSlot (slot_index : Nat)
  | invalidSlot (reason : String)
  | invalidEndpoint (slot_index : Nat)
  | sealedConfig
  | notFound (id : String)
deriving Repr, DecidableEq

/-- Whether an `Except` value is a success. -/
def isOkE {ε α : Type} : Except ε α → Bool
  | .ok _ => true
  | .error _ => false

/-- Modelled from the spec: spec 4.3, `validate_against(platform) -> ok |
InvalidSlotError(reason)`: checks slot_index bounds and instrument
membership in the platform's allowed set for that slot. -/
def SlotConfig.validate_against (s : SlotConfig) (p : PlatformSpec) :
    Except MokuError Unit :=
  if s.slot_index < p.slot_count then
    if s.instrument ∈ p.allowedFor s.slot_index then
      .ok ()
    else
      .error (.invalidSlot "instrument not in the allowed set for this slot")
  else
    .error (.invalidSlot "slot_index out of bounds for platform")

/-- Modelled from the spec: spec 3, an endpoint reference is
`(slot_index, channel)`. -/
structure Endpoint where
  slot_index : Nat
  channel : Nat
deriving Repr, DecidableEq

/-- Modelled from the spec: `moku_models.routing` is missing from the source
tree.  Spec 3: a connection has a source and a destination endpoint. -/
structure MokuConnection where
  source : Endpoint
  destination : Endpoint
deriving Repr, DecidableEq

/-- Modelled from the spec: spec 3, a `ConnectionList` is an ordered sequence
of connections, insertion order significant. -/
abbrev MokuConnectionList := List MokuConnection

/-- Modelled from the spec: spec 4.4, the configuration state machine
`Building -> Sealed`, no reverse transition. -/
inductive ConfigState where
  | building
  | sealed
deriving Repr, DecidableEq

/-- Modelled from the spec: `moku_models.platform_config` is missing from the
source tree.  Spec 3: a `DeploymentConfig` (exported as `MokuConfig`) is
`{ platform, slots: mapping slot_index -> SlotConfig, routing }`, plus the
`Building/Sealed` state of spec 4.4. -/
structure MokuConfig where
  platform : PlatformSpec
  slots : List (Nat × SlotConfig)
  routing : MokuConnectionList
  state : ConfigState
deriving Repr, DecidableEq

/-- Look up the slot configuration stored at `slot_index` `i`. -/
def MokuConfig.lookupSlot (cfg : MokuConfig) (i : Nat) : Option SlotConfig :=
  (cfg.slots.find? (fun p => p.1 == i)).map Prod.snd

/-- Whether slot index `i` is occupied in the configuration. -/
def MokuConfig.hasSlot (cfg : MokuConfig) (i : Nat) : Bool :=
  (cfg.lookupSlot i).isSome

/-- Modelled from the spec: spec 4.4, `add_slot` fails with
`SealedConfigError` on a sealed configuration (spec 4.4 state machine),
`DuplicateSlotError` if the slot index is already occupied, and
`InvalidSlotError` if `validate_against(platform)` fails. -/
def MokuConfig.add_slot (cfg : MokuConfig) (c : SlotConfig) :
    Except MokuError MokuConfig :=
  if cfg.state = ConfigState.sealed then
    .error .sealedConfig
  else if cfg.hasSlot c.slot_index then
    .error (.duplicateSlot c.slot_index)
  else
    match c.validate_against cfg.platform with
    | .error e => .error e
    | .ok _ => .ok { cfg with slots := cfg.slots ++ [(c.slot_index, c)] }

/-- Modelled from the spec: spec 4.4, `add_connection` fails with
`SealedConfigError` on a sealed configuration and `InvalidEndpointError`
if either endpoint's slot is absent; endpoint validation is eager
(checked at `add_connection` time, slots must be added first). -/
def MokuConfig.add_connection (cfg : MokuConfig) (c : MokuConnection) :
    Except MokuError MokuConfig :=
  if cfg.state = ConfigState.sealed then
    .error .sealedConfig
  else if ¬ cfg.hasSlot c.source.slot_index then
    .error (.invalidEndpoint c.source.slot_index)
  else if ¬ cfg.hasSlot c.destination.slot_index then
    .error (.invalidEndpoint c.destination.slot_index)
  else
    .ok { cfg with routing := cfg.routing ++ [c] }

/-- Modelled from the spec: spec 4.4, `seal()` transitions the configuration
to the immutable `Sealed` state; calling it again no-ops (spec 8: the
second call "either no-ops or raises a well-defined error"). -/
def MokuConfig.seal (cfg : MokuConfig) : MokuConfig :=
  { cfg with state := ConfigState.sealed }

/-- The error, if any, that a stored slot entry contributes to `validate()`. -/
def MokuConfig.slotError (cfg : MokuConfig) (p : Nat × SlotConfig) :
    Option MokuError :=
  match p.2.validate_against cfg.platform with
  | .ok _ => none
  | .error e => some e

/-- The error, if any, that a stored connection contributes to `validate()`. -/
def MokuConfig.connectionError (cfg : MokuConfig) (c : MokuConnection) :
    Option MokuError :=
  if ¬ cfg.hasSlot c.source.slot_index then
    some (.invalidEndpoint c.source.slot_index)
  else if ¬ cfg.hasSlot c.destination.slot_index then
    some (.invalidEndpoint c.destination.slot_index)
  else
    none

/-- Modelled from the spec: spec 4.4, `validate()` re-checks every slot and
every connection against the current platform and slot set, accumulating
ALL violations rather than failing fast. -/
def MokuConfig.validate (cfg : MokuConfig) : List MokuError :=
  cfg.slots.filterMap cfg.slotError ++ cfg.routing.filterMap cfg.connectionError

/-- Modelled from the spec: the builder operations of spec 4.4 gathered as a
single step alphabet, used to state the sealed-state invariant over
arbitrary call sequences. -/
inductive MokuOp where
  | addSlot (c : SlotConfig)
  | addConnection (c : MokuConnection)
  | sealOp
deriving Repr, DecidableEq

/-- Apply one builder operation to a configuration. -/
def MokuConfig.applyOp (cfg : MokuConfig) : MokuOp → Except MokuError MokuConfig
  | .addSlot c => cfg.add_slot c
  | .addConnection c => cfg.add_connection c
  | .sealOp => .ok cfg.seal

/-- Run a sequence of builder operations; a failing operation leaves the
configuration unchanged (spec 7: fail-fast errors are surfaced to the
caller, no silent recovery and no partial mutation). -/
def MokuConfig.runOps (cfg : MokuConfig) : List MokuOp → MokuConfig
  | [] => cfg
  | op :: ops =>
    match cfg.applyOp op with
    | .ok cfg' => cfg'.runOps ops
    | .error _ => cfg.runOps ops

/-- Modelled from the spec: `moku_models.platforms.moku_go` is missing from
the source tree.  Spec 4.1: the "Go" platform is one of the fixed hardcoded
specs; `MOKU_GO_PLATFORM` is its exported instance. -/
def MOKU_GO_PLATFORM : PlatformSpec :=
  { name := "Go"
    slot_count := 2
    allowed_instruments :=
      [["Oscilloscope", "WaveformGenerator", "CloudCompile"],
       ["Oscilloscope", "WaveformGenerator", "CloudCompile"]] }

/-- Modelled from the spec: spec 4.1 and spec 9, the platform table is an
explicit registry (mapping name to PlatformSpec) populated at startup from
a fixed set of hardcoded specs. -/
def platform_registry : List (String × PlatformSpec) :=
  [("Go", MOKU_GO_PLATFORM)]

/-- Modelled from the spec: spec 4.1, `get_platform(name) -> PlatformSpec`,
fails with `UnknownPlatformError` if the name is unregistered. -/
def get_platform (name : String) : Except MokuError PlatformSpec :=
  match platform_registry.find? (fun p => p.1 == name) with
  | some p => .ok p.2
  | none => .error (.unknownPlatform name)

/-- Modelled from the spec: `moku_models.discovery` is missing from the
source tree.  Spec 3: a `DeviceInfo` is `{ address, serial_or_id,
platform_name, last_seen }`. -/
structure MokuDeviceInfo where
  address : String
  serial_or_id : String
  platform_name : String
  last_seen : Nat
deriving Repr, DecidableEq

/-- Modelled from the spec: spec 3, a `DeviceCache` is a mapping from
identity key to `DeviceInfo` with time-based staleness filtering. -/
structure MokuDeviceCache where
  entries : List (String × MokuDeviceInfo)
deriving Repr, DecidableEq

/-- The cache with explicit empty init (spec 3). -/
def MokuDeviceCache.empty : MokuDeviceCache := ⟨[]⟩

/-- Modelled from the spec: spec 4.5, `put(info)` inserts or overwrites by
identity key. -/
def MokuDeviceCache.put (cache : MokuDeviceCache) (info : MokuDeviceInfo) :
    MokuDeviceCache :=
  ⟨cache.entries.filter (fun p => p.1 != info.serial_or_id)
     ++ [(info.serial_or_id, info)]⟩

/-- Modelled from the spec: spec 4.5, `get(id) -> DeviceInfo |
NotFoundError`. -/
def MokuDeviceCache.get (cache : MokuDeviceCache) (id : String) :
    Except MokuError MokuDeviceInfo :=
  match cache.entries.find? (fun p => p.1 == id) with
  | some p => .ok p.2
  | none => .error (.notFound id)

/-- Modelled from the spec: spec 4.5, `list_fresh(max_age)` returns the
entries with `now - last_seen <= max_age`, filtering at read time; the
cache state handed back is the one it was given (stale entries are not
auto-removed by a read). -/
def MokuDeviceCache.list_fresh (cache : MokuDeviceCache)
    (now max_age : Nat) : List MokuDeviceInfo × MokuDeviceCache :=
  ((cache.entries.filter (fun p => now - p.2.last_seen ≤ max_age)).map Prod.snd,
   cache)

/-- Modelled from the spec: spec 4.5, explicit `purge(max_age)` removes the
stale entries (those with `now - last_seen > max_age`). -/
def MokuDeviceCache.purge (cache : MokuDeviceCache)
    (now max_age : Nat) : MokuDeviceCache :=
  ⟨cache.entries.filter (fun p => now - p.2.last_seen ≤ max_age)⟩

/-- Modelled from the spec: spec 6, a plain structured serialization of the
configuration's three fields, with the platform referenced by name, not
embedded. -/
structure SerializedConfig where
  platform_name : String
  slots : List (Nat × SlotConfig)
  routing : MokuConnectionList
deriving Repr, DecidableEq

/-- Serialize a configuration to its three-field document (spec 6). -/
def MokuConfig.serialize (cfg : MokuConfig) : SerializedConfig :=
  { platform_name := cfg.platform.name
    slots := cfg.slots
    routing := cfg.routing }

/-- Deserialize a document back into a sealed configuration, resolving the
platform by name through the registry (spec 6). -/
def deserialize (s : SerializedConfig) : Except MokuError MokuConfig :=
  match get_platform s.platform_name with
  | .error e => .error e
  | .ok p =>
    .ok { platform := p
          slots := s.slots
          routing := s.routing
          state := ConfigState.sealed }

/-- Modelled from the spec: spec 9, `MokuPlatformConfig` is a deprecated
backward-compatibility alias for the canonical `MokuConfig`, delegating
entirely to it. -/
abbrev MokuPlatformConfig := MokuConfig

/-- Deprecated alias operation: delegates to `MokuConfig.add_slot`. -/
def MokuPlatformConfig.add_slot :
    MokuPlatformConfig → SlotConfig → Except MokuError MokuPlatformConfig :=
  MokuConfig.add_slot

/-- Deprecated alias operation: delegates to `MokuConfig.add_connection`. -/
def MokuPlatformConfig.add_connection :
    MokuPlatformConfig → MokuConnection → Except MokuError MokuPlatformConfig :=
  MokuConfig.add_connection

/-- Deprecated alias operation: delegates to `MokuConfig.seal`. -/
def MokuPlatformConfig.seal : MokuPlatformConfig → MokuPlatformConfig :=
  MokuConfig.seal

/-- Deprecated alias operation: delegates to `MokuConfig.validate`. -/
def MokuPlatformConfig.validate : MokuPlatformConfig → List MokuError :=
  MokuConfig.validate

/-- A sample slot configuration valid for slot 0 of the Go platform. -/
def sampleSlot0 : SlotConfig :=
  { slot_index := 0, instrument := "Oscilloscope", instrument_parameters := [] }

/-- A second sample configuration for slot 0, with a different instrument. -/
def sampleSlot0Alt : SlotConfig :=
  { slot_index := 0, instrument := "WaveformGenerator"
    instrument_parameters := [] }

/-- A sample slot configuration valid for slot 1 of the Go platform. -/
def sampleSlot1 : SlotConfig :=
  { slot_index := 1, instrument := "WaveformGenerator"
    instrument_parameters := [] }

/-- A freshly created, empty configuration for the Go platform. -/
def emptyGoConfig : MokuConfig :=
  { platform := MOKU_GO_PLATFORM, slots := [], routing := []
    state := ConfigState.building }

/-- A building-state configuration with slots 0 and 1 populated. -/
def twoSlotGoConfig : MokuConfig :=
  { platform := MOKU_GO_PLATFORM
    slots := [(0, sampleSlot0), (1, sampleSlot1)]
    routing := []
    state := ConfigState.building }

/-- A sealed, registry-resolvable, violation-free configuration. -/
def sealedGoConfig : MokuConfig :=
  { platform := MOKU_GO_PLATFORM
    slots := [(0, sampleSlot0)]
    routing := []
    state := ConfigState.sealed }

/-- A connection from slot 0 channel 0 to slot 1 channel 0. -/
def sampleConn : MokuConnection :=
  { source := { slot_index := 0, channel := 0 }
    destination := { slot_index := 1, channel := 0 } }

/-- A sample discovered device with identity key "A" seen at time 100. -/
def sampleDevice : MokuDeviceInfo :=
  { address := "192.168.73.1", serial_or_id := "A", platform_name := "Go"
    last_seen := 100 }

end MokuModels

namespace MokuModels

/-- Claim C5: `validate_against(platform)` succeeds exactly when the slot index is
in bounds and the instrument is in the platform's allowed set for that
slot; otherwise it fails with an `InvalidSlotError` carrying a reason. -/
theorem validate_against_characterisation (s : SlotConfig) (p : PlatformSpec) :
    (s.validate_against p = .ok () ↔
      s.slot_index < p.slot_count ∧
        s.instrument ∈ p.allowedFor s.slot_index) ∧
    (¬ (s.slot_index < p.slot_count ∧
        s.instrument ∈ p.allowedFor s.slot_index) →
      ∃ r, s.validate_against p = .error (.invalidSlot r)) := by
  unfold SlotConfig.validate_against
  constructor
  · split
    · split
      · simp_all
      · simp_all
    · simp_all
  · intro h
    split
    · split
      · exact absurd ⟨by assumption, by assumption⟩ h
      · exact ⟨_, rfl⟩
    · exact ⟨_, rfl⟩

/-- Claim C8: `get_platform` returns the registered spec for registered names and
fails with `UnknownPlatformError` exactly on unregistered names; the
registry is a fixed hardcoded table containing the "Go" platform. -/
theorem get_platform_contract :
    ("Go", MOKU_GO_PLATFORM) ∈ platform_registry ∧
    get_platform "Go" = .ok MOKU_GO_PLATFORM ∧
    (∀ name spec, (name, spec) ∈ platform_registry →
      get_platform name = .ok spec) ∧
    (∀ name, get_platform name = .error (.unknownPlatform name) ↔
      ∀ spec, (name, spec) ∉ platform_registry) := by
  refine ⟨by simp [platform_registry], rfl, ?_, ?_⟩
  · intro name spec hmem
    simp [platform_registry] at hmem
    obtain ⟨h1, h2⟩ := hmem
    subst h1; subst h2
    rfl
  · intro name
    by_cases h : name = "Go"
    · subst h
      constructor
      · intro habs
        rw [(rfl : get_platform "Go" = .ok MOKU_GO_PLATFORM)] at habs
        exact Except.noConfusion habs
      · intro habs
        exact absurd (by simp [platform_registry]) (habs MOKU_GO_PLATFORM)
    · constructor
      · intro _ spec hmem
        simp [platform_registry] at hmem
        exact h hmem.1
      · intro _
        unfold get_platform
        have hfind : platform_registry.find? (fun p => p.1 == name) = none := by
          simp [platform_registry]
          exact fun habs => h habs.symm
        rw [hfind]

/-- Claim C10: `MokuPlatformConfig` is a type alias for `MokuConfig` and each of
its operations delegates to (is literally equal to) the corresponding
canonical operation. -/
theorem moku_platform_config_delegates :
    MokuPlatformConfig = MokuConfig ∧
    MokuPlatformConfig.add_slot = MokuConfig.add_slot ∧
    MokuPlatformConfig.add_connection = MokuConfig.add_connection ∧
    MokuPlatformConfig.seal = MokuConfig.seal ∧
    MokuPlatformConfig.validate = MokuConfig.validate :=
  ⟨rfl, rfl, rfl, rfl, rfl⟩

theorem runOps_state_sealed (ops : List MokuOp) :
    ∀ cfg : MokuConfig, cfg.state = ConfigState.sealed →
      (cfg.runOps ops).state = ConfigState.sealed := by
  induction ops with
  | nil => intro cfg h; exact h
  | cons op ops ih =>
    intro cfg h
    cases op with
    | addSlot c =>
      have : cfg.runOps (MokuOp.addSlot c :: ops) = cfg.runOps ops := by
        simp [MokuConfig.runOps, MokuConfig.applyOp, MokuConfig.add_slot, h]
      rw [this]; exact ih cfg h
    | addConnection c =>
      have : cfg.runOps (MokuOp.addConnection c :: ops) = cfg.runOps ops := by
        simp [MokuConfig.runOps, MokuConfig.applyOp, MokuConfig.add_connection,
          h]
      rw [this]; exact ih cfg h
    | sealOp =>
      have : cfg.runOps (MokuOp.sealOp :: ops) = (cfg.seal).runOps ops := by
        simp [MokuConfig.runOps, MokuConfig.applyOp]
      rw [this]; exact ih cfg.seal rfl

theorem length_filterMap_eq {α β : Type} (f : α → Option β) (l : List α) :
    (l.filterMap f).length = (l.filter (fun a => (f a).isSome)).length := by
  induction l with
  | nil => rfl
  | cons a l ih =>
    cases h : f a with
    | none => simp [List.filterMap_cons, List.filter_cons, h, ih]
    | some b => simp [List.filterMap_cons, List.filter_cons, h, ih]

theorem slotError_isSome (cfg : MokuConfig) (p : Nat × SlotConfig) :
    (cfg.slotError p).isSome = ! isOkE (p.2.validate_against cfg.platform) := by
  cases h : p.2.validate_against cfg.platform <;>
    simp [MokuConfig.slotError, isOkE, h]

theorem connectionError_isSome (cfg : MokuConfig) (c : MokuConnection) :
    (cfg.connectionError c).isSome =
      ! (cfg.hasSlot c.source.slot_index &&
        cfg.hasSlot c.destination.slot_index) := by
  by_cases h1 : cfg.hasSlot c.source.slot_index <;>
    by_cases h2 : cfg.hasSlot c.destination.slot_index <;>
      simp [MokuConfig.connectionError, h1, h2]

theorem slotError_eq_none_iff (cfg : MokuConfig) (p : Nat × SlotConfig) :
    cfg.slotError p = none ↔
      isOkE (p.2.validate_against cfg.platform) = true := by
  cases h : p.2.validate_against cfg.platform <;>
    simp [MokuConfig.slotError, isOkE, h]

theorem connectionError_eq_none_iff (cfg : MokuConfig) (c : MokuConnection) :
    cfg.connectionError c = none ↔
      (cfg.hasSlot c.source.slot_index = true ∧
        cfg.hasSlot c.destination.slot_index = true) := by
  by_cases h1 : cfg.hasSlot c.source.slot_index <;>
    by_cases h2 : cfg.hasSlot c.destination.slot_index <;>
      simp [MokuConfig.connectionError, h1, h2]

/-- Claim C1: `validate()` aggregates all violations: its report has exactly one
entry per invalid slot plus one per invalid connection (so N independent
violations give N entries), and it is empty exactly when every slot
passes `validate_against` and every connection has both endpoints
present. -/
theorem validate_aggregates_all_violations (cfg : MokuConfig) :
    cfg.validate.length =
      (cfg.slots.filter
        (fun p => ! isOkE (p.2.validate_against cfg.platform))).length +
      (cfg.routing.filter
        (fun c => ! (cfg.hasSlot c.source.slot_index &&
          cfg.hasSlot c.destination.slot_index))).length ∧
    (cfg.validate = [] ↔
      (∀ p ∈ cfg.slots, isOkE (p.2.validate_against cfg.platform) = true) ∧
      (∀ c ∈ cfg.routing, cfg.hasSlot c.source.slot_index = true ∧
        cfg.hasSlot c.destination.slot_index = true)) := by
  constructor
  · have hs : (fun p => (cfg.slotError p).isSome) =
        (fun p : Nat × SlotConfig =>
          ! isOkE (p.2.validate_against cfg.platform)) := by
      funext p; exact slotError_isSome cfg p
    have hc : (fun c => (cfg.connectionError c).isSome) =
        (fun c : MokuConnection =>
          ! (cfg.hasSlot c.source.slot_index &&
            cfg.hasSlot c.destination.slot_index)) := by
      funext c; exact connectionError_isSome cfg c
    unfold MokuConfig.validate
    rw [List.length_append, length_filterMap_eq, length_filterMap_eq, hs, hc]
  · unfold MokuConfig.validate
    rw [List.append_eq_nil, List.filterMap_eq_nil_iff,
      List.filterMap_eq_nil_iff]
    constructor
    · rintro ⟨h1, h2⟩
      exact ⟨fun p hp => (slotError_eq_none_iff cfg p).1 (h1 p hp),
             fun c hc => (connectionError_eq_none_iff cfg c).1 (h2 c hc)⟩
    · rintro ⟨h1, h2⟩
      exact ⟨fun p hp => (slotError_eq_none_iff cfg p).2 (h1 p hp),
             fun c hc => (connectionError_eq_none_iff cfg c).2 (h2 c hc)⟩

/-- Claim C2: after `seal()`, the configuration is in the `Sealed` state, every
mutating call fails with `SealedConfigError`, a second `seal()` no-ops,
and no sequence of further operations ever brings it back to `Building`. -/
theorem seal_is_terminal (cfg : MokuConfig) :
    (cfg.seal).state = ConfigState.sealed ∧
    (∀ c, (cfg.seal).add_slot c = .error .sealedConfig) ∧
    (∀ c, (cfg.seal).add_connection c = .error .sealedConfig) ∧
    (cfg.seal).seal = cfg.seal ∧
    (∀ ops, ((cfg.seal).runOps ops).state = ConfigState.sealed) := by
  refine ⟨rfl, ?_, ?_, rfl, ?_⟩
  · intro c
    simp [MokuConfig.add_slot, MokuConfig.seal]
  · intro c
    simp [MokuConfig.add_connection, MokuConfig.seal]
  · intro ops
    exact runOps_state_sealed ops cfg.seal rfl

theorem lookupSlot_append_last (cfg : MokuConfig) (i : Nat) (c : SlotConfig)
    (h : cfg.lookupSlot i = none) :
    MokuConfig.lookupSlot
      { cfg with slots := cfg.slots ++ [(i, c)] } i = some c := by
  unfold MokuConfig.lookupSlot at h ⊢
  have hfind : cfg.slots.find? (fun p => p.1 == i) = none := by
    cases hf : cfg.slots.find? (fun p => p.1 == i) with
    | none => rfl
    | some q => rw [hf] at h; exact Option.noConfusion h
  simp [List.find?_append, hfind]

/-- Claim C3: after a successful `add_slot`, a second `add_slot` with the same
slot index fails with `DuplicateSlotError` and the originally stored
`SlotConfig` is still the one found at that index. -/
theorem add_slot_duplicate_rejected (cfg cfg' : MokuConfig)
    (c1 c2 : SlotConfig) (hadd : cfg.add_slot c1 = .ok cfg')
    (hidx : c2.slot_index = c1.slot_index) :
    cfg'.add_slot c2 = .error (.duplicateSlot c2.slot_index) ∧
    cfg'.lookupSlot c1.slot_index = some c1 := by
  unfold MokuConfig.add_slot at hadd
  split at hadd
  · exact Except.noConfusion hadd
  · rename_i hseal
    split at hadd
    · exact Except.noConfusion hadd
    · rename_i hdup
      split at hadd
      · exact Except.noConfusion hadd
      · injection hadd with heq
        subst heq
        have hnone : cfg.lookupSlot c1.slot_index = none := by
          unfold MokuConfig.hasSlot at hdup
          cases hl : cfg.lookupSlot c1.slot_index with
          | none => rfl
          | some q => rw [hl] at hdup; simp at hdup
        have hlook := lookupSlot_append_last cfg c1.slot_index c1 hnone
        refine ⟨?_, hlook⟩
        simp [MokuConfig.add_slot, MokuConfig.hasSlot, hseal, hidx, hlook]

/-- Claim C3 witness: on the Go platform, adding slot 0 twice is rejected with
`DuplicateSlotError` and the first slot configuration is kept. -/
theorem add_slot_duplicate_rejected_witness :
    MokuConfig.add_slot
      { platform := MOKU_GO_PLATFORM, slots := [(0, sampleSlot0)]
        routing := [], state := ConfigState.building } sampleSlot0Alt =
      .error (.duplicateSlot sampleSlot0Alt.slot_index) ∧
    MokuConfig.lookupSlot
      { platform := MOKU_GO_PLATFORM, slots := [(0, sampleSlot0)]
        routing := [], state := ConfigState.building }
      sampleSlot0.slot_index = some sampleSlot0 :=
  add_slot_duplicate_rejected emptyGoConfig
    { platform := MOKU_GO_PLATFORM, slots := [(0, sampleSlot0)]
      routing := [], state := ConfigState.building }
    sampleSlot0 sampleSlot0Alt rfl rfl

/-- Claim C4: on a building-state configuration, `add_connection` fails with
`InvalidEndpointError` when either endpoint's slot is absent, and
succeeds (appending the connection) when both referenced slots have been
added. -/
theorem add_connection_endpoint_check (cfg : MokuConfig)
    (c : MokuConnection) (hb : cfg.state = ConfigState.building) :
    ((cfg.hasSlot c.source.slot_index = false ∨
      cfg.hasSlot c.destination.slot_index = false) →
      ∃ i, cfg.add_connection c = .error (.invalidEndpoint i)) ∧
    (cfg.hasSlot c.source.slot_index = true →
      cfg.hasSlot c.destination.slot_index = true →
      cfg.add_connection c =
        .ok { cfg with routing := cfg.routing ++ [c] }) := by
  have hns : ¬ (cfg.state = ConfigState.sealed) := by
    rw [hb]; intro h; exact ConfigState.noConfusion h
  constructor
  · intro hmiss
    by_cases h1 : cfg.hasSlot c.source.slot_index
    · have h2 : cfg.hasSlot c.destination.slot_index = false := by
        cases hmiss with
        | inl h => rw [h1] at h; exact absurd h (by simp)
        | inr h => exact h
      exact ⟨c.destination.slot_index,
        by simp [MokuConfig.add_connection, hns, h1, h2]⟩
    · exact ⟨c.source.slot_index,
        by simp [MokuConfig.add_connection, hns, h1]⟩
  · intro h1 h2
    simp [MokuConfig.add_connection, hns, h1, h2]

/-- Claim C4 witness: with slots 0 and 1 added, connecting slot 0 to slot 1
succeeds and appends the connection to the routing list. -/
theorem add_connection_endpoint_check_witness :
    twoSlotGoConfig.add_connection sampleConn =
      .ok { twoSlotGoConfig with
        routing := twoSlotGoConfig.routing ++ [sampleConn] } :=
  (add_connection_endpoint_check twoSlotGoConfig sampleConn rfl).2 rfl rfl

/-- Claim C6: `list_fresh` returns exactly the stored entries whose age is at
most `max_age`, the cache state it hands back is unchanged, and stale
entries are removed exactly by an explicit `purge`. -/
theorem list_fresh_reads_without_mutation (cache : MokuDeviceCache)
    (now max_age : Nat) :
    (∀ info : MokuDeviceInfo,
      info ∈ (cache.list_fresh now max_age).1 ↔
        ∃ id, (id, info) ∈ cache.entries ∧ now - info.last_seen ≤ max_age) ∧
    (cache.list_fresh now max_age).2 = cache ∧
    (∀ (id : String) (info : MokuDeviceInfo),
      (id, info) ∈ (cache.purge now max_age).entries ↔
        (id, info) ∈ cache.entries ∧ now - info.last_seen ≤ max_age) := by
  refine ⟨?_, rfl, ?_⟩
  · intro info
    unfold MokuDeviceCache.list_fresh
    simp only [List.mem_map, List.mem_filter, decide_eq_true_eq]
    constructor
    · rintro ⟨⟨id, v⟩, ⟨hmem, hfresh⟩, hsnd⟩
      subst hsnd
      exact ⟨id, hmem, hfresh⟩
    · rintro ⟨id, hmem, hfresh⟩
      exact ⟨(id, info), ⟨hmem, hfresh⟩, rfl⟩
  · intro id info
    unfold MokuDeviceCache.purge
    simp [List.mem_filter]

/-- Claim C7: for an entry with id "A" put at time t0, `list_fresh` includes it
at t0+5 and excludes it at t0+20 with max_age 10 while `get "A"` still
succeeds; after `purge` at t0+20 the entry is gone and `get "A"` fails
with `NotFoundError`; in general `get` fails with `NotFoundError` exactly
when the id is absent from the mapping. -/
theorem cache_filter_scenario (t0 : Nat) (info : MokuDeviceInfo)
    (hid : info.serial_or_id = "A") (ht : info.last_seen = t0) :
    info ∈ ((MokuDeviceCache.empty.put info).list_fresh (t0 + 5) 10).1 ∧
    info ∉ ((MokuDeviceCache.empty.put info).list_fresh (t0 + 20) 10).1 ∧
    (MokuDeviceCache.empty.put info).get "A" = .ok info ∧
    ((MokuDeviceCache.empty.put info).purge (t0 + 20) 10).get "A" =
      .error (.notFound "A") ∧
    (∀ (cache : MokuDeviceCache) (id : String),
      cache.get id = .error (.notFound id) ↔
        ∀ v, (id, v) ∉ cache.entries) := by
  have hput : (MokuDeviceCache.empty.put info).entries =
      [(info.serial_or_id, info)] := rfl
  refine ⟨?_, ?_, ?_, ?_, ?_⟩
  · simp [MokuDeviceCache.list_fresh, hput, ht]
    omega
  · simp [MokuDeviceCache.list_fresh, hput, ht]
    omega
  · simp [MokuDeviceCache.get, hput, hid]
  · have hneg : ¬ (t0 + 20 - info.last_seen ≤ 10) := by rw [ht]; omega
    have hpurge : (MokuDeviceCache.empty.put info).purge (t0 + 20) 10 =
        ⟨[]⟩ := by
      unfold MokuDeviceCache.purge
      rw [hput]
      congr 1
      rw [List.filter_cons, if_neg (by simpa using hneg)]
      rfl
    rw [hpurge]
    rfl
  · intro cache id
    unfold MokuDeviceCache.get
    cases hf : cache.entries.find? (fun p => p.1 == id) with
    | none =>
      rw [List.find?_eq_none] at hf
      constructor
      · intro _ v hmem
        exact hf (id, v) hmem (by simp)
      · intro _
        rfl
    | some q =>
      have hqmem : q ∈ cache.entries := List.mem_of_find?_eq_some hf
      have hq1 : q.1 = id := by
        have hq := List.find?_some hf
        simpa using hq
      constructor
      · intro habs
        exact Except.noConfusion habs
      · intro hnone
        exfalso
        apply hnone q.2
        cases q with
        | mk a b =>
          simp only at hq1
          rw [← hq1]
          exact hqmem

/-- Claim C7 witness: the scenario instantiated at t0 = 100 with a concrete
device record. -/
theorem cache_filter_scenario_witness :
    sampleDevice ∈
      ((MokuDeviceCache.empty.put sampleDevice).list_fresh (100 + 5) 10).1 ∧
    sampleDevice ∉
      ((MokuDeviceCache.empty.put sampleDevice).list_fresh (100 + 20) 10).1 ∧
    (MokuDeviceCache.empty.put sampleDevice).get "A" = .ok sampleDevice ∧
    ((MokuDeviceCache.empty.put sampleDevice).purge (100 + 20) 10).get "A" =
      .error (.notFound "A") ∧
    (∀ (cache : MokuDeviceCache) (id : String),
      cache.get id = .error (.notFound id) ↔
        ∀ v, (id, v) ∉ cache.entries) :=
  cache_filter_scenario 100 sampleDevice rfl rfl

/-- Claim C9: deserializing the serialization of a sealed, registry-resolvable,
violation-free configuration yields the original configuration, and the
result still validates cleanly. -/
theorem serialize_roundtrip (cfg : MokuConfig)
    (hp : get_platform cfg.platform.name = .ok cfg.platform)
    (hs : cfg.state = ConfigState.sealed)
    (hv : cfg.validate = []) :
    deserialize cfg.serialize = .ok cfg ∧
    (∀ cfg', deserialize cfg.serialize = .ok cfg' → cfg'.validate = []) := by
  have h1 : deserialize cfg.serialize = .ok cfg := by
    have h2 : cfg.serialize.platform_name = cfg.platform.name := rfl
    unfold deserialize
    rw [h2, hp]
    show Except.ok
      { platform := cfg.platform, slots := cfg.serialize.slots
        routing := cfg.serialize.routing
        state := ConfigState.sealed } = Except.ok cfg
    rw [← hs]
    rfl
  refine ⟨h1, ?_⟩
  intro cfg' h'
  rw [h1] at h'
  injection h' with h''
  rw [← h'']
  exact hv

/-- Claim C9 witness: the round trip evaluated on a concrete sealed Go
configuration. -/
theorem serialize_roundtrip_witness :
    deserialize sealedGoConfig.serialize = .ok sealedGoConfig ∧
    (∀ cfg', deserialize sealedGoConfig.serialize = .ok cfg' →
      cfg'.validate = []) :=
  serialize_roundtrip sealedGoConfig rfl rfl rfl

end MokuModels
